import Mathlib

/-!
Shallow embedding of `src/DeepSearch.py` (Jina DeepSearch adapter for Open-WebUI).

The adapter is a single async method `Tools.deepsearch` built around:
  * a settings object `Tools.Valves` (lines 23-44),
  * a payload builder (lines 59-91),
  * a text-extraction helper `_extract_text_from_parsed` (lines 94-136),
  * a request lifecycle with streaming normalization and error handling
    (lines 138-266).

Modelling conventions:
  * JSON values are the inductive `JsonV`; Python dicts are association
    lists in insertion order with unique keys (lookup takes the first hit).
  * Byte chunks are modelled post-decode as `String`s (the source decodes
    with `errors="ignore"`, which never raises; an empty byte chunk decodes
    to the empty string, so the `if not chunk: continue` test is preserved).
  * `json.loads` is an external library call; it is a parameter
    `loads : String -> Option JsonV` (`none` = raise), so every theorem
    quantifying over `loads` holds for any parser behaviour.
  * The event sink `__event_emitter__` is `Option Emitter` where an
    `Emitter` maps an event to `Except String Unit`; `.error m` models the
    awaited coroutine raising an exception whose `str` is `m`.
  * Exceptions are the `PyExn` type (`asyncio.TimeoutError` vs generic
    `Exception`); the driver threads the list of successfully delivered
    sink events through both normal and exceptional control flow.
-/

/-- JSON values, as decoded by Python's `json` module (numbers restricted to
integers, which is all the adapter's logic ever inspects). -/
inductive JsonV where
  | null
  | bool (b : Bool)
  | num (n : Int)
  | str (s : String)
  | arr (xs : List JsonV)
  | obj (kvs : List (String × JsonV))

/-- Python `key in obj` / `obj[key]` on a dict modelled as an association
list in insertion order: the first binding wins. -/
def lookup? (kvs : List (String × JsonV)) (key : String) : Option JsonV :=
  match kvs.find? (fun p => p.1 == key) with
  | some p => some p.2
  | none => none

/-- Python truthiness (`if p:`) of a decoded JSON value. -/
def truthy : JsonV → Bool
  | .null => false
  | .bool b => b
  | .num n => n != 0
  | .str s => s != ""
  | .arr xs => !xs.isEmpty
  | .obj kvs => !kvs.isEmpty

/-- The double-quote character, written via its code point. -/
def dblQ : String := String.singleton (Char.ofNat 34)

/-- The single-quote character, written via its code point. -/
def sglQ : String := String.singleton (Char.ofNat 39)

/-- The backslash character, written via its code point. -/
def bslash : String := String.singleton (Char.ofNat 92)

/-- Escaping of one character inside a JSON string literal
(approximates `json.dumps`; `\u` escaping of non-ASCII is omitted,
no claim evaluates it). -/
def jsonEscapeChar (c : Char) : String :=
  if c = Char.ofNat 34 then bslash ++ dblQ
  else if c = Char.ofNat 92 then bslash ++ bslash
  else if c = Char.ofNat 10 then bslash ++ "n"
  else if c = Char.ofNat 13 then bslash ++ "r"
  else if c = Char.ofNat 9 then bslash ++ "t"
  else String.singleton c

/-- A JSON string literal as produced by `json.dumps`. -/
def jsonQuote (s : String) : String :=
  dblQ ++ String.join (s.data.map jsonEscapeChar) ++ dblQ

mutual
/-- Python `json.dumps(v)` with the default separators `", "` and `": "`
(used by the raw-line fallback at line 224 of the source). -/
def jsonDumps : JsonV → String
  | .null => "null"
  | .bool true => "true"
  | .bool false => "false"
  | .num n => toString n
  | .str s => jsonQuote s
  | .arr xs => "[" ++ String.intercalate ", " (dumpsArr xs) ++ "]"
  | .obj kvs => "\x7b" ++ String.intercalate ", " (dumpsObj kvs) ++ "\x7d"

/-- Serialization of the elements of a JSON array. -/
def dumpsArr : List JsonV → List String
  | [] => []
  | x :: xs => jsonDumps x :: dumpsArr xs

/-- Serialization of the members of a JSON object. -/
def dumpsObj : List (String × JsonV) → List String
  | [] => []
  | (k, x) :: xs => (jsonQuote k ++ ": " ++ jsonDumps x) :: dumpsObj xs
end

mutual
/-- Python `repr` of a decoded JSON value (single-quoted strings,
`True`/`False`/`None`; quote-escaping inside strings omitted — no claim
evaluates it on strings containing quotes). -/
def pyRepr : JsonV → String
  | .null => "None"
  | .bool true => "True"
  | .bool false => "False"
  | .num n => toString n
  | .str s => sglQ ++ s ++ sglQ
  | .arr xs => "[" ++ String.intercalate ", " (reprArr xs) ++ "]"
  | .obj kvs => "\x7b" ++ String.intercalate ", " (reprObj kvs) ++ "\x7d"

/-- Repr of the elements of a list. -/
def reprArr : List JsonV → List String
  | [] => []
  | x :: xs => pyRepr x :: reprArr xs

/-- Repr of the members of a dict. -/
def reprObj : List (String × JsonV) → List String
  | [] => []
  | (k, x) :: xs => (sglQ ++ k ++ sglQ ++ ": " ++ pyRepr x) :: reprObj xs
end

/-- Python `str(v)` applied to a decoded JSON value (identity on strings,
`True`/`False`/`None` on scalars, `repr` on containers). Scalar cases are
spelled out so the definition iota-reduces without touching the
well-founded `pyRepr`. -/
def pyStr : JsonV → String
  | .str s => s
  | .null => "None"
  | .bool true => "True"
  | .bool false => "False"
  | .num n => toString n
  | v => pyRepr v

/-- Spaces used by `json.dumps(..., indent=2)`. -/
def indentOf (lvl : Nat) : String := String.mk (List.replicate lvl ' ')

mutual
/-- Python `json.dumps(v, indent=2)` rendered at nesting level `lvl`
(used only by the non-streaming branch, line 171 of the source). -/
def jsonPretty (lvl : Nat) : JsonV → String
  | .arr [] => "[]"
  | .arr (x :: xs) =>
      "[\n" ++ String.intercalate ",\n" (prettyArr (lvl + 2) (x :: xs))
        ++ "\n" ++ indentOf lvl ++ "]"
  | .obj [] => "\x7b\x7d"
  | .obj (kv :: kvs) =>
      "\x7b\n" ++ String.intercalate ",\n" (prettyObj (lvl + 2) (kv :: kvs))
        ++ "\n" ++ indentOf lvl ++ "\x7d"
  | v => jsonDumps v

/-- Indented rendering of array elements. -/
def prettyArr (lvl : Nat) : List JsonV → List String
  | [] => []
  | x :: xs => (indentOf lvl ++ jsonPretty lvl x) :: prettyArr lvl xs

/-- Indented rendering of object members. -/
def prettyObj (lvl : Nat) : List (String × JsonV) → List String
  | [] => []
  | (k, x) :: xs =>
      (indentOf lvl ++ jsonQuote k ++ ": " ++ jsonPretty lvl x) :: prettyObj lvl xs
end

/-- Characters stripped by Python `str.strip()` (the ASCII whitespace set;
the adapter's inputs never contain the more exotic Unicode spaces). -/
def pyWs (c : Char) : Bool :=
  c = ' ' || c = '\t' || c = '\n' || c = '\r' || c = '\x0b' || c = '\x0c'

/-- Python `s.strip()`. -/
def pyStrip (s : String) : String :=
  String.mk (((s.data.dropWhile pyWs).reverse.dropWhile pyWs).reverse)

/-- Python `s.startswith(p)`. -/
def pyStartsWith (s p : String) : Bool :=
  s.data.take p.data.length == p.data

/-- Python `s[n:]`. -/
def pyDrop (s : String) (n : Nat) : String := String.mk (s.data.drop n)

/-- Python `s.splitlines()` restricted to the line terminators the adapter
can actually receive over HTTP (`\n`, `\r\n`, `\r`): no trailing empty
line for a final terminator, `""` gives `[]`. -/
def splitlinesAux : List Char → List Char → List String
  | [], acc => if acc.isEmpty then [] else [String.mk acc.reverse]
  | '\r' :: '\n' :: rest, acc => String.mk acc.reverse :: splitlinesAux rest []
  | '\r' :: rest, acc => String.mk acc.reverse :: splitlinesAux rest []
  | '\n' :: rest, acc => String.mk acc.reverse :: splitlinesAux rest []
  | c :: rest, acc => splitlinesAux rest (c :: acc)

/-- Python `s.splitlines()`. -/
def pySplitlines (s : String) : List String := splitlinesAux s.data []

/-- `Tools.Valves` (source lines 23-44): the adapter's settings object.
Every field is required and has the pydantic default shown in
`defaultValves`; in particular `budget_tokens` is a plain `int`, not an
optional value. -/
structure Valves where
  jina_api_key : String
  timeout_seconds : Int
  reasoning_effort : String
  budget_tokens : Int
  max_returned_urls : Int
  no_direct_answer : Bool
  team_size : Int
  stream_by_default : Bool

/-- The pydantic field defaults of `Tools.Valves`. -/
def defaultValves : Valves :=
  { jina_api_key := ""
    timeout_seconds := 600
    reasoning_effort := "low"
    budget_tokens := 500000
    max_returned_urls := 50
    no_direct_answer := true
    team_size := 4
    stream_by_default := true }

/-- The fixed system instruction (source lines 72-77). -/
def systemPrompt : String :=
  "You are a research assistant conducting deep searches. "
    ++ "Your task is to find comprehensive, authoritative information on the topic. "
    ++ "Structure results as: Key Findings, Verified Sources (with URLs), and Analysis. "
    ++ "NEVER provide direct answers - only present search results and sources."

/-- The `messages` list of the outbound payload (source lines 69-80). -/
def buildMessages (query : String) : JsonV :=
  .arr
    [.obj [("role", .str "system"), ("content", .str systemPrompt)],
     .obj [("role", .str "user"), ("content", .str ("Research request: " ++ query))]]

/-- The outbound request payload (source lines 82-91), as the association
list `json.dumps` would serialize: every key is always present, and
`budget_tokens` unconditionally carries `int(self.valves.budget_tokens)`. -/
def buildPayload (v : Valves) (query : String) (use_stream : Bool) :
    List (String × JsonV) :=
  [("model", .str "jina-deepsearch-v1"),
   ("messages", buildMessages query),
   ("stream", .bool use_stream),
   ("reasoning_effort", .str v.reasoning_effort),
   ("budget_tokens", .num v.budget_tokens),
   ("max_returned_urls", .str (toString v.max_returned_urls)),
   ("no_direct_answer", .bool v.no_direct_answer),
   ("team_size", .num v.team_size)]

/-- Streaming-flag resolution (source lines 59-61): the explicit override
wins over the settings default. -/
def resolveStream (stream : Option Bool) (v : Valves) : Bool :=
  match stream with
  | some b => b
  | none => v.stream_by_default

/-- The `for key in ("content", "text", "message", "raw")` loop of
`_extract_text_from_parsed` (source lines 102-104): return the value of
the first key in the list that is present with a string value. -/
def priorityLoop (kvs : List (String × JsonV)) : List String → Option String
  | [] => none
  | key :: rest =>
    match lookup? kvs key with
    | some (.str s) => some s
    | _ => priorityLoop kvs rest

/-- The per-choice-element body of the `for c in obj["choices"]` loop
(source lines 107-129): `str(c["delta"]["content"])` whenever `delta` is a
dict containing a `content` key of any type; elif `message` is a dict, its
`content` when a string, or `str` of its `content`'s `"text"` member when
`content` is a dict containing one; elif a `text` key is present,
`str(c["text"])`. `none` means the iteration appends nothing. -/
def extractPiece (c : JsonV) : Option String :=
  match c with
  | .obj ckvs =>
    match (match lookup? ckvs "delta" with
           | some (.obj d) => lookup? d "content"
           | _ => none) with
    | some dc => some (pyStr dc)
    | none =>
      match lookup? ckvs "message" with
      | some (.obj m) =>
        (match lookup? m "content" with
         | some (.str s) => some s
         | some (.obj mc) =>
           (match lookup? mc "text" with
            | some t => some (pyStr t)
            | none => none)
         | _ => none)
      | _ =>
        match lookup? ckvs "text" with
        | some t => some (pyStr t)
        | none => none
  | _ => none

/-- The string-values fallback (source lines 133-135): join the first three
string-typed dict values with single spaces, if any exist. -/
def stringValsJoin (kvs : List (String × JsonV)) : Option String :=
  let string_vals := kvs.filterMap (fun p =>
    match p.2 with
    | .str s => some s
    | _ => none)
  if !string_vals.isEmpty then some (String.intercalate " " (string_vals.take 3))
  else none

/-- `_extract_text_from_parsed` (source lines 94-136). -/
def _extract_text_from_parsed (obj : JsonV) : Option String :=
  match obj with
  | .null => none
  | .str s => some s
  | .obj kvs =>
    match priorityLoop kvs ["content", "text", "message", "raw"] with
    | some s => some s
    | none =>
      match lookup? kvs "choices" with
      | some (.arr cs) =>
        let pieces := cs.filterMap extractPiece
        if !pieces.isEmpty then some (String.join pieces)
        else stringValsJoin kvs
      | _ => stringValsJoin kvs
  | _ => none

/-- A `SinkEvent` delivered to `__event_emitter__`: either
`status{description, done}` or `stream{data}` (source lines 140-148,
156-165, 172-181, 228-233, 237-246, 253-263). -/
inductive Event where
  | status (description : String) (done : Bool)
  | stream (data : JsonV)

/-- The abstract sink: awaiting it either returns normally (`.ok`) or
raises an exception whose `str()` is the carried message (`.error`). -/
def Emitter : Type := Event → Except String Unit

/-- The two exception classes the driver distinguishes (source lines
249-251): `asyncio.TimeoutError` and every other `Exception` with its
`str()` message. -/
inductive PyExn where
  | timeout
  | exc (msg : String)

/-- How the chunk stream ends after delivering all its chunks: normal EOF,
expiry of the total timeout during a chunk wait, or a transport exception. -/
inductive StreamEnd where
  | eof
  | timedOut
  | raised (msg : String)

/-- An HTTP response from the abstract transport: status, `resp.text()`
body, `resp.json()` body (modelled as already decoded; claims never
exercise an invalid non-streaming body), and the decoded byte chunks the
streaming iterator yields before `streamEnd`. -/
structure HttpResponse where
  status : Nat
  text : String
  json : JsonV
  chunks : List String
  streamEnd : StreamEnd

/-- Outcome of `session.post(...)`: a response, a timeout before any
response, or another transport exception. -/
inductive Transport where
  | ok (r : HttpResponse)
  | timedOut
  | raised (msg : String)

/-- One `await __event_emitter__(e)` at a call site with no local
`try`/`except`: absent sink is a no-op; a successful delivery is appended
to the trace; a raising sink propagates as a generic exception carrying
the trace delivered so far. -/
def emitTo (em : Option Emitter) (e : Event) (tr : List Event) :
    Except (PyExn × List Event) (List Event) :=
  match em with
  | none => .ok tr
  | some f =>
    match f e with
    | .ok _ => .ok (tr ++ [e])
    | .error m => .error (.exc m, tr)

/-- The aggregated-parts entry used when extraction produced nothing truthy
(source lines 220-225): `parsed.get("raw")` if `parsed` is a dict with a
`raw` key, else `json.dumps(parsed)`. Note the `raw` value is appended
as-is, whatever its type. -/
def fallbackEntry (parsed : JsonV) : JsonV :=
  match parsed with
  | .obj kvs =>
    (match lookup? kvs "raw" with
     | some v => v
     | none => .str (jsonDumps parsed))
  | _ => .str (jsonDumps parsed)

/-- The content of a raw line after trimming and `data:`-prefix stripping
(source lines 199-204): `line = raw_line.strip()`, then if it starts with
`data:`, drop `len("data:")` characters and strip again. This is the value
the sentinel test and `json.loads` receive. -/
def strippedContent (raw_line : String) : String :=
  let line := pyStrip raw_line
  if pyStartsWith line "data:" then pyStrip (pyDrop line ("data:".data.length)) else line

/-- Processing of one raw line (source lines 198-225): strip, skip blanks,
strip an SSE `data:` prefix, discard the `[DONE]`/`DONE` sentinels, parse
with `json.loads` (wrapping parse failures as `{"raw": line}`), and
compute the entry appended to `aggregated_parts`. `none` means the line
contributes nothing and no stream event is emitted for it; otherwise the
result is `(entry, parsed)` where `parsed` is the stream event's payload. -/
def lineResult (loads : String → Option JsonV) (raw_line : String) :
    Option (JsonV × JsonV) :=
  if pyStrip raw_line = "" then none
  else
    let line2 := strippedContent raw_line
    if line2 = "[DONE]" || line2 = "DONE" then none
    else
      let parsed := match loads line2 with
        | some j => j
        | none => JsonV.obj [("raw", JsonV.str line2)]
      let entry := match _extract_text_from_parsed parsed with
        | some h => if h != "" then JsonV.str h else fallbackEntry parsed
        | none => fallbackEntry parsed
      some (entry, parsed)

/-- All candidate lines of the streaming loop, in arrival order: empty
chunks are skipped (source lines 190-191), every other chunk is split
into lines (source line 198); lines are never buffered across chunk
boundaries. -/
def streamLinesOf (chunks : List String) : List String :=
  (chunks.map (fun chunk => if chunk = "" then [] else pySplitlines chunk)).flatten

/-- The streaming loop over candidate lines (source lines 198-233),
threading `aggregated_parts` and the trace of delivered sink events; a
raising sink aborts the loop with the exception. -/
def processLines (loads : String → Option JsonV) (em : Option Emitter) :
    List String → List JsonV → List Event →
    Except (PyExn × List Event) (List JsonV × List Event)
  | [], parts, tr => .ok (parts, tr)
  | l :: ls, parts, tr =>
    match lineResult loads l with
    | none => processLines loads em ls parts tr
    | some (entry, parsed) =>
      match emitTo em (.stream parsed) tr with
      | .error e => .error e
      | .ok tr2 => processLines loads em ls (parts ++ [entry]) tr2

/-- The finalization `" ".join(p for p in aggregated_parts if p)` (source
line 236): falsy entries are filtered out; a truthy non-string entry makes
`join` raise `TypeError` (possible only when upstream JSON carried a
non-string `raw` field). -/
def joinSpaceTruthy (parts : List JsonV) : Except String String :=
  let ts := parts.filter truthy
  if ts.all (fun v => match v with | .str _ => true | _ => false) then
    .ok (String.intercalate " " (ts.map (fun v => match v with | .str s => s | _ => "")))
  else .error "sequence item: expected str instance"

/-- The body of the `try:` block (source lines 138-247): initial status
emission, transport invocation, the non-200 error path, the non-streaming
path, and the streaming path. Returns the final string and the trace, or
the exception that escapes the block together with the trace delivered
before it. -/
def deepsearchBody (v : Valves) (query : String) (stream : Option Bool)
    (em : Option Emitter) (tp : Transport) (loads : String → Option JsonV) :
    Except (PyExn × List Event) (String × List Event) :=
  let use_stream := resolveStream stream v
  let _payload := buildPayload v query use_stream
  match emitTo em (.status "DeepSearching..." false) [] with
  | .error e => .error e
  | .ok tr =>
    match tp with
    | .timedOut => .error (.timeout, tr)
    | .raised m => .error (.exc m, tr)
    | .ok r =>
      if r.status ≠ 200 then
        match emitTo em (.status ("DeepSearch API error " ++ toString r.status) true) tr with
        | .error e => .error e
        | .ok tr2 => .ok ("API Error " ++ toString r.status ++ ": " ++ r.text, tr2)
      else if !use_stream then
        match emitTo em (.status "Received DeepSearch response." true) tr with
        | .error e => .error e
        | .ok tr2 =>
          let pretty := jsonPretty 0 r.json
          .ok ((match _extract_text_from_parsed r.json with
                | some s => if s != "" then s else pretty
                | none => pretty), tr2)
      else
        match processLines loads em (streamLinesOf r.chunks) [] tr with
        | .error e => .error e
        | .ok (parts, tr2) =>
          match r.streamEnd with
          | .timedOut => .error (.timeout, tr2)
          | .raised m => .error (.exc m, tr2)
          | .eof =>
            match joinSpaceTruthy parts with
            | .error m => .error (.exc m, tr2)
            | .ok final_text =>
              match emitTo em (.status "DeepSearch complete." true) tr2 with
              | .error e => .error e
              | .ok tr3 =>
                .ok ((if final_text != "" then final_text
                      else "DeepSearch returned no readable content."), tr3)

/-- The `except Exception` handler (source lines 251-266): one best-effort
terminal status emission whose own failure is swallowed by the inner
`try`/`except: pass`, then the fixed unexpected-error string. -/
def unexpectedHandler (em : Option Emitter) (m : String) (tr : List Event) :
    String × List Event :=
  let tr2 := match em with
    | none => tr
    | some f =>
      match f (.status ("Unexpected error: " ++ m) true) with
      | .ok _ => tr ++ [Event.status ("Unexpected error: " ++ m) true]
      | .error _ => tr
  ("Unexpected error during DeepSearch: " ++ m, tr2)

/-- `Tools.deepsearch` (source lines 46-266): the missing-credential guard,
the `try:` body, and the two `except` clauses. The result is the returned
string together with the trace of successfully delivered sink events. -/
def deepsearch (v : Valves) (query : String) (stream : Option Bool)
    (em : Option Emitter) (tp : Transport) (loads : String → Option JsonV) :
    String × List Event :=
  if v.jina_api_key = "" then
    ("Error: Jina DeepSearch API key missing. Set it in tool settings.", [])
  else
    match deepsearchBody v query stream em tp loads with
    | .ok res => res
    | .error (.timeout, tr) => ("Error: request to DeepSearch timed out.", tr)
    | .error (.exc m, tr) => unexpectedHandler em m tr

/-- The priority key order the spec states for the Text Extraction Rule. -/
def priorityKeys : List String := ["content", "text", "message", "raw"]

/-- The spec's reading of the priority step, stated independently of the
source: the first key of `keys` present in the mapping with a string value
yields that string. -/
def firstStringKey (kvs : List (String × JsonV)) (keys : List String) : Option String :=
  keys.findSome? (fun k =>
    match lookup? kvs k with
    | some (.str s) => some s
    | _ => none)

/-- Modelled from the spec: conditional serialization of the optional token
budget demanded by the spec's data model ("absent must omit the field
entirely from the outbound payload, not send a default") — the
`budget_tokens` members contributed to the payload for a given optional
budget. The source has no such optional value. -/
def specBudgetField (budget : Option Int) : List (String × JsonV) :=
  match budget with
  | some n => [("budget_tokens", .num n)]
  | none => []

/-- The per-choice-element rule as claim C7 words it: `delta.content` is
used only when `delta` is a mapping containing STRING content; otherwise
the `message.content` / `text` fallbacks apply. -/
def specPieceFallback (ckvs : List (String × JsonV)) : Option String :=
  match lookup? ckvs "message" with
  | some (.obj m) =>
    (match lookup? m "content" with
     | some (.str s) => some s
     | some (.obj mc) =>
       (match lookup? mc "text" with
        | some (.str t) => some t
        | _ => none)
     | _ => none)
  | _ =>
    match lookup? ckvs "text" with
    | some (.str t) => some t
    | _ => none

/-- The claim-side per-choice-element extraction rule (see
`specPieceFallback`). -/
def specPiece (c : JsonV) : Option String :=
  match c with
  | .obj ckvs =>
    match lookup? ckvs "delta" with
    | some (.obj d) =>
      (match lookup? d "content" with
       | some (.str s) => some s
       | _ => specPieceFallback ckvs)
    | _ => specPieceFallback ckvs
  | _ => none

/-- Whether an event is a terminal status event (`done = true`). -/
def isTerminalStatus : Event → Bool
  | .status _ true => true
  | _ => false

/-- The `aggregated_parts` entries a list of lines contributes. -/
def lineEntries (loads : String → Option JsonV) (lines : List String) : List JsonV :=
  lines.filterMap (fun l => (lineResult loads l).map (fun p => p.1))

/-- The stream events a list of lines causes to be emitted. -/
def lineEvents (loads : String → Option JsonV) (lines : List String) : List Event :=
  lines.filterMap (fun l => (lineResult loads l).map (fun p => Event.stream p.2))

/-- A sink that accepts every event. -/
def okSink : Emitter := fun _ => .ok ()

/-- A sink that raises on every `stream` event and accepts status events. -/
def failSink : Emitter := fun e =>
  match e with
  | .stream _ => .error "boom"
  | _ => .ok ()

/-- A parser behaviour under which no line parses as JSON. -/
def loads0 : String → Option JsonV := fun _ => none

/-- Default settings with a non-empty credential. -/
def v1 : Valves := { defaultValves with jina_api_key := "k" }

/-- A 200 streaming response delivering the single chunk `"hello"` and
closing normally. -/
def tp1 : Transport := .ok ⟨200, "", .null, ["hello"], .eof⟩

/-- A 200 streaming response delivering one chunk and then timing out
during the next chunk wait. -/
def tpTimeout : Transport := .ok ⟨200, "", .null, ["a"], .timedOut⟩

/-- A complete 503 response with body `"down"`. -/
def r503 : HttpResponse := ⟨503, "down", .null, [], .eof⟩

/-- A complete 201 response with body `"Created"`. -/
def r201 : HttpResponse := ⟨201, "Created", .null, ["x"], .eof⟩

/-- A 200 streaming response with no chunks at all. -/
def rEmpty : HttpResponse := ⟨200, "", .null, [], .eof⟩

/-- A choice element whose `delta.content` is the boolean `true` and which
also carries a string `text` field. -/
def cexElem : JsonV :=
  .obj [("delta", .obj [("content", .bool true)]), ("text", .str "T")]

/-- The source's priority loop agrees with the claim-side first-string-key
search for every key list. -/
theorem priorityLoop_eq_firstStringKey (kvs : List (String × JsonV)) :
    ∀ ks, priorityLoop kvs ks = firstStringKey kvs ks := by
  intro ks
  induction ks with
  | nil => rfl
  | cons k rest ih =>
    rw [firstStringKey, List.findSome?_cons]
    cases h : lookup? kvs k with
    | none => simpa [priorityLoop, h, firstStringKey] using ih
    | some v =>
      cases v <;> simp [priorityLoop, h, firstStringKey, ih]

/-- With no sink, the streaming loop never fails and delivers nothing: it
returns the accumulated parts extended by each line's entry. -/
theorem processLines_none (loads : String → Option JsonV) :
    ∀ lines parts tr,
      processLines loads none lines parts tr =
        .ok (parts ++ lineEntries loads lines, tr) := by
  intro lines
  induction lines with
  | nil => intro parts tr; simp [processLines, lineEntries]
  | cons l ls ih =>
    intro parts tr
    rw [processLines]
    cases h : lineResult loads l with
    | none => simp [h, ih parts tr, lineEntries, List.filterMap_cons]
    | some p =>
      obtain ⟨entry, parsed⟩ := p
      simp [h, emitTo, ih (parts ++ [entry]) tr, lineEntries, List.filterMap_cons]

/-- With the all-accepting sink, the streaming loop never fails: it returns
the accumulated parts extended by each line's entry and the trace extended
by each line's stream event. -/
theorem processLines_okSink (loads : String → Option JsonV) :
    ∀ lines parts tr,
      processLines loads (some okSink) lines parts tr =
        .ok (parts ++ lineEntries loads lines, tr ++ lineEvents loads lines) := by
  intro lines
  induction lines with
  | nil => intro parts tr; simp [processLines, lineEntries, lineEvents]
  | cons l ls ih =>
    intro parts tr
    rw [processLines]
    cases h : lineResult loads l with
    | none =>
      simp [h, ih parts tr, lineEntries, lineEvents, List.filterMap_cons]
    | some p =>
      obtain ⟨entry, parsed⟩ := p
      simp [h, emitTo, okSink, ih (parts ++ [entry]) (tr ++ [Event.stream parsed]),
        lineEntries, lineEvents, List.filterMap_cons]

/-- Every event the streaming loop emits is a `stream` event; none is a
terminal status event. -/
theorem lineEvents_not_terminal (loads : String → Option JsonV) :
    ∀ lines, (lineEvents loads lines).all (fun e => !isTerminalStatus e) = true := by
  intro lines
  induction lines with
  | nil => rfl
  | cons l ls ih =>
    cases h : lineResult loads l with
    | none => simpa [lineEvents, List.filterMap_cons, h] using ih
    | some p =>
      simpa [lineEvents, List.filterMap_cons, h, isTerminalStatus] using ih

/-- A concatenation whose left part is a non-empty string is non-empty. -/
theorem append_ne_empty_left (s t : String) (h : s ≠ "") : s ++ t ≠ "" := by
  cases s with
  | mk sd =>
    cases t with
    | mk td =>
      intro he
      have hd : sd ++ td = [] := congrArg String.data he
      have hs : sd = [] := (List.append_eq_nil.mp hd).1
      subst hs
      exact h rfl

/-- Claim C1 (corrected): the source's `Valves.budget_tokens` is a required
integer with pydantic default `500000`; there is no absent/null state, and
the payload builder serializes the key unconditionally. Amended statement:
for every Settings value, query and stream mode, the serialized outbound
payload contains the `budget_tokens` key, carrying exactly the Settings'
(required) integer budget. -/
theorem C1_budget_always_serialized (v : Valves) (query : String) (use_stream : Bool) :
    lookup? (buildPayload v query use_stream) "budget_tokens" =
      some (JsonV.num v.budget_tokens) := rfl

/-- Claim C1 counterexample: the spec-mandated conditional serialization
(`specBudgetField`) omits the key for an absent budget, but the code's
payload for the default (operator-unconfigured) Settings carries
`budget_tokens = 500000` — the "when absent the field is omitted entirely"
behaviour does not exist in the code, which always sends the default. -/
theorem C1_budget_counterexample :
    specBudgetField none = [] ∧
      lookup? (buildPayload defaultValves "q" true) "budget_tokens" =
        some (JsonV.num 500000) :=
  ⟨rfl, rfl⟩

/-- Claim C5 (confirmed): with an empty credential, `deepsearch` returns the
fixed ConfigurationError string with an empty event trace, for EVERY
transport outcome and parser behaviour — so no sink event is emitted and
the result is independent of the network (no request is built or sent;
the guard is the first statement of the function). -/
theorem C5_empty_credential (v : Valves) (query : String) (stream : Option Bool)
    (em : Option Emitter) (tp : Transport) (loads : String → Option JsonV)
    (h : v.jina_api_key = "") :
    deepsearch v query stream em tp loads =
      ("Error: Jina DeepSearch API key missing. Set it in tool settings.", []) := by
  simp [deepsearch, h]

/-- Claim C5 witness: the default Settings (empty credential) at a concrete
query, with a sink present and a transport that would time out. -/
theorem C5_empty_credential_witness :
    defaultValves.jina_api_key = "" ∧
      deepsearch defaultValves "q" none (some okSink) Transport.timedOut loads0 =
        ("Error: Jina DeepSearch API key missing. Set it in tool settings.", []) :=
  ⟨rfl, C5_empty_credential defaultValves "q" none (some okSink) Transport.timedOut loads0 rfl⟩

/-- Claim C6 (confirmed): for every mapping, if the claim-side search — the
first key among `content`, `text`, `message`, `raw`, in that order,
present with a string value — yields `s`, then the Text Extraction Rule
returns exactly `s`. -/
theorem C6_priority_order (kvs : List (String × JsonV)) (s : String)
    (h : firstStringKey kvs priorityKeys = some s) :
    _extract_text_from_parsed (JsonV.obj kvs) = some s := by
  have hp : priorityLoop kvs ["content", "text", "message", "raw"] = some s := by
    rw [priorityLoop_eq_firstStringKey kvs]
    exact h
  simp [_extract_text_from_parsed, hp]

/-- Claim C6 witness: `extraction of a mapping with content "A" and text "B"
returns "A"` — the first-priority key wins. -/
theorem C6_priority_order_witness :
    firstStringKey [("content", JsonV.str "A"), ("text", JsonV.str "B")] priorityKeys =
        some "A" ∧
      _extract_text_from_parsed
          (JsonV.obj [("content", JsonV.str "A"), ("text", JsonV.str "B")]) = some "A" :=
  ⟨rfl, C6_priority_order [("content", JsonV.str "A"), ("text", JsonV.str "B")] "A" rfl⟩

/-- Claim C8 (confirmed): a stream line whose content after trimming and
`data:`-prefix stripping is exactly `[DONE]` or `DONE` is discarded by the
normalizer: processing that line adds no entry to the aggregated parts and
emits no stream event, for every parser behaviour and every sink. -/
theorem C8_done_sentinel_discarded (loads : String → Option JsonV) (em : Option Emitter)
    (raw_line : String) (parts : List JsonV) (tr : List Event)
    (h : strippedContent raw_line = "[DONE]" ∨ strippedContent raw_line = "DONE") :
    processLines loads em [raw_line] parts tr = .ok (parts, tr) := by
  have hlr : lineResult loads raw_line = none := by
    by_cases hl : pyStrip raw_line = ""
    · exfalso
      have hsc : strippedContent raw_line = "" := by
        simp only [strippedContent]
        rw [hl]
        rfl
      rw [hsc] at h
      rcases h with h | h <;> exact absurd h (by decide)
    · simp only [lineResult, if_neg hl]
      rcases h with h | h <;> simp [h]
  simp [processLines, hlr]

/-- Claim C8 witness: the concrete line `"data: [DONE]"` leaves both the
aggregated parts and the trace untouched. -/
theorem C8_done_sentinel_discarded_witness :
    (strippedContent "data: [DONE]" = "[DONE]" ∨ strippedContent "data: [DONE]" = "DONE") ∧
      processLines loads0 (some okSink) ["data: [DONE]"] [JsonV.str "x"] [] =
        .ok ([JsonV.str "x"], []) :=
  ⟨Or.inl rfl,
   C8_done_sentinel_discarded loads0 (some okSink) "data: [DONE]" [JsonV.str "x"] []
     (Or.inl rfl)⟩

/-- Claim C3 (confirmed): for every complete response with a non-2xx status,
`deepsearch` (with a sink that accepts every event) returns exactly
`"API Error {status}: {body}"` with the body verbatim, and the delivered
trace is the initial progress event followed by exactly one terminal
status event (`done = true`), emitted before returning. -/
theorem C3_non2xx_error_string (v : Valves) (query : String) (stream : Option Bool)
    (r : HttpResponse) (loads : String → Option JsonV)
    (hk : v.jina_api_key ≠ "") (h2xx : ¬(200 ≤ r.status ∧ r.status ≤ 299)) :
    deepsearch v query stream (some okSink) (.ok r) loads =
      ("API Error " ++ toString r.status ++ ": " ++ r.text,
       [Event.status "DeepSearching..." false,
        Event.status ("DeepSearch API error " ++ toString r.status) true]) := by
  have hs : r.status ≠ 200 := by omega
  simp [deepsearch, deepsearchBody, emitTo, okSink, hk, hs]

/-- Claim C3 witness: status 503 with body `"down"` returns exactly
`"API Error 503: down"` after one terminal status event. -/
theorem C3_non2xx_error_string_witness :
    v1.jina_api_key ≠ "" ∧ ¬(200 ≤ r503.status ∧ r503.status ≤ 299) ∧
      deepsearch v1 "q" none (some okSink) (.ok r503) loads0 =
        ("API Error 503: down",
         [Event.status "DeepSearching..." false,
          Event.status "DeepSearch API error 503" true]) :=
  ⟨by decide, by decide,
   C3_non2xx_error_string v1 "q" none r503 loads0 (by decide) (by decide)⟩

/-- Claim C10 (confirmed): the success check is exactly `status == 200`; any
other status — including other 2xx codes — takes the error path and
returns `"API Error {status}: {body}"` without processing the body or the
chunk stream (the result is independent of `loads` and of the response's
`json`/`chunks` fields, over which the theorem quantifies). -/
theorem C10_strict_200_check (v : Valves) (query : String) (stream : Option Bool)
    (r : HttpResponse) (loads : String → Option JsonV)
    (hk : v.jina_api_key ≠ "") (hs : r.status ≠ 200) :
    deepsearch v query stream none (.ok r) loads =
      ("API Error " ++ toString r.status ++ ": " ++ r.text, []) := by
  simp [deepsearch, deepsearchBody, emitTo, hk, hs]

/-- Claim C10 witness: the 2xx status 201 with body `"Created"` and a
non-empty chunk stream still takes the error path. -/
theorem C10_strict_200_check_witness :
    v1.jina_api_key ≠ "" ∧ r201.status ≠ 200 ∧
      deepsearch v1 "q" (some true) none (.ok r201) loads0 =
        ("API Error 201: Created", []) :=
  ⟨by decide, by decide,
   C10_strict_200_check v1 "q" (some true) r201 loads0 (by decide) (by decide)⟩

/-- Claim C2 counterexample: the per-line stream emission (source lines
228-233) has no local failure boundary. With a sink that raises on stream
events, the same stream that yields `"hello"` under an accepting sink
makes `deepsearch` abort and return the unexpected-error string instead —
the failure is NOT swallowed at the emission site and the final string IS
affected. -/
theorem C2_counterexample :
    (deepsearch v1 "q" (some true) (some failSink) tp1 loads0).1 =
        "Unexpected error during DeepSearch: boom" ∧
      (deepsearch v1 "q" (some true) (some okSink) tp1 loads0).1 = "hello" :=
  ⟨rfl, rfl⟩

/-- Claim C2 (corrected) amended statement: a sink failure during streaming
propagates out of the streaming loop as a generic exception; the top-level
`except Exception` handler then returns the fixed
`"Unexpected error during DeepSearch: {message}"` string, and only the
handler's own best-effort terminal emission is locally swallowed (the
returned string is the same whether that final emission succeeds or
fails). -/
theorem C2_sink_failure_aborts (v : Valves) (query : String) (stream : Option Bool)
    (em : Option Emitter) (tp : Transport) (loads : String → Option JsonV)
    (m : String) (tr : List Event)
    (hk : v.jina_api_key ≠ "")
    (hb : deepsearchBody v query stream em tp loads = .error (.exc m, tr)) :
    (deepsearch v query stream em tp loads).1 =
      "Unexpected error during DeepSearch: " ++ m := by
  simp [deepsearch, hk, hb, unexpectedHandler]

/-- Claim C2 witness: the concrete failing-sink stream run aborts with the
exception `"boom"` raised by the sink at the first stream event. -/
theorem C2_sink_failure_aborts_witness :
    v1.jina_api_key ≠ "" ∧
      deepsearchBody v1 "q" (some true) (some failSink) tp1 loads0 =
        .error (.exc "boom", [Event.status "DeepSearching..." false]) ∧
      (deepsearch v1 "q" (some true) (some failSink) tp1 loads0).1 =
        "Unexpected error during DeepSearch: boom" :=
  ⟨by decide, rfl,
   C2_sink_failure_aborts v1 "q" (some true) (some failSink) tp1 loads0 "boom"
     [Event.status "DeepSearching..." false] (by decide) rfl⟩

/-- Claim C9 (confirmed): on a 200 streaming response whose stream drains
normally, if the joined aggregated result is empty then `deepsearch`
returns the fixed `"DeepSearch returned no readable content."` sentinel;
and on this path the returned string is never the empty string. -/
theorem C9_empty_result_sentinel (v : Valves) (query : String) (r : HttpResponse)
    (loads : String → Option JsonV)
    (hk : v.jina_api_key ≠ "") (hs : r.status = 200) (he : r.streamEnd = .eof) :
    (joinSpaceTruthy (lineEntries loads (streamLinesOf r.chunks)) = .ok "" →
        (deepsearch v query (some true) none (.ok r) loads).1 =
          "DeepSearch returned no readable content.") ∧
      (deepsearch v query (some true) none (.ok r) loads).1 ≠ "" := by
  cases hj : joinSpaceTruthy (lineEntries loads (streamLinesOf r.chunks)) with
  | error m =>
    have hd : deepsearch v query (some true) none (.ok r) loads =
        ("Unexpected error during DeepSearch: " ++ m, []) := by
      simp [deepsearch, deepsearchBody, emitTo, resolveStream, hk, hs,
        processLines_none, he, hj, unexpectedHandler]
    constructor
    · intro hj'
      exact absurd hj' (by simp)
    · rw [hd]
      exact append_ne_empty_left _ m (by decide)
  | ok ft =>
    have hd : deepsearch v query (some true) none (.ok r) loads =
        ((if ft != "" then ft else "DeepSearch returned no readable content."), []) := by
      simp [deepsearch, deepsearchBody, emitTo, resolveStream, hk, hs,
        processLines_none, he, hj]
    by_cases hft : ft = ""
    · subst hft
      constructor
      · intro _
        rw [hd]
        rfl
      · rw [hd]
        decide
    · constructor
      · intro hj'
        simp at hj'
        exact absurd hj' hft
      · rw [hd]
        simp [hft]

/-- Claim C9 witness: a 200 streaming response with no chunks yields an
empty aggregation and the fixed sentinel string. -/
theorem C9_empty_result_sentinel_witness :
    v1.jina_api_key ≠ "" ∧ rEmpty.status = 200 ∧ rEmpty.streamEnd = StreamEnd.eof ∧
      joinSpaceTruthy (lineEntries loads0 (streamLinesOf rEmpty.chunks)) = .ok "" ∧
      (deepsearch v1 "q" (some true) none (.ok rEmpty) loads0).1 =
        "DeepSearch returned no readable content." :=
  ⟨by decide, rfl, rfl, rfl,
   (C9_empty_result_sentinel v1 "q" rEmpty loads0 (by decide) rfl rfl).1 rfl⟩

/-- The last element of a list extended by one element. -/
theorem getLast?_append_singleton {α : Type} (l : List α) (a : α) :
    (l ++ [a]).getLast? = some a := by
  induction l with
  | nil => rfl
  | cons x xs ih =>
    rw [List.cons_append, List.getLast?_cons]
    simp [ih]

/-- Claim C4 counterexample: a timeout expiring during a chunk wait after
stream processing has begun (one stream event already delivered) returns
the fixed timeout message with NO terminal status emission: the
`except asyncio.TimeoutError` handler (source lines 249-250) returns
immediately without touching the sink. -/
theorem C4_counterexample :
    (deepsearch v1 "q" (some true) (some okSink) tpTimeout loads0).1 =
        "Error: request to DeepSearch timed out." ∧
      (deepsearch v1 "q" (some true) (some okSink) tpTimeout loads0).2 =
        [Event.status "DeepSearching..." false,
         Event.stream (JsonV.obj [("raw", JsonV.str "a")])] ∧
      ((deepsearch v1 "q" (some true) (some okSink) tpTimeout loads0).2.filter
          isTerminalStatus) = [] :=
  ⟨rfl, rfl, rfl⟩

/-- Claim C4 (corrected) amended statement: of the abort paths taken after
stream processing has begun, only the unexpected-exception path attempts a
best-effort terminal status emission (and its trace then ends with that
terminal event); the timeout path returns the fixed timeout message with
no terminal status event ever delivered. Stated for an all-accepting
sink. -/
theorem C4_abort_emission_paths (v : Valves) (query : String) (chunks : List String)
    (tx : String) (js : JsonV) (loads : String → Option JsonV) (m : String)
    (hk : v.jina_api_key ≠ "") :
    ((deepsearch v query (some true) (some okSink)
          (.ok ⟨200, tx, js, chunks, .timedOut⟩) loads).1 =
        "Error: request to DeepSearch timed out." ∧
      (deepsearch v query (some true) (some okSink)
          (.ok ⟨200, tx, js, chunks, .timedOut⟩) loads).2.all
        (fun e => !isTerminalStatus e) = true) ∧
    ((deepsearch v query (some true) (some okSink)
          (.ok ⟨200, tx, js, chunks, .raised m⟩) loads).1 =
        "Unexpected error during DeepSearch: " ++ m ∧
      (deepsearch v query (some true) (some okSink)
          (.ok ⟨200, tx, js, chunks, .raised m⟩) loads).2.getLast? =
        some (Event.status ("Unexpected error: " ++ m) true)) := by
  have h1 : deepsearch v query (some true) (some okSink)
      (.ok ⟨200, tx, js, chunks, .timedOut⟩) loads =
      ("Error: request to DeepSearch timed out.",
       Event.status "DeepSearching..." false :: lineEvents loads (streamLinesOf chunks)) := by
    simp [deepsearch, deepsearchBody, emitTo, okSink, resolveStream, hk,
      processLines_okSink]
  have h2 : deepsearch v query (some true) (some okSink)
      (.ok ⟨200, tx, js, chunks, .raised m⟩) loads =
      ("Unexpected error during DeepSearch: " ++ m,
       (Event.status "DeepSearching..." false :: lineEvents loads (streamLinesOf chunks))
         ++ [Event.status ("Unexpected error: " ++ m) true]) := by
    simp [deepsearch, deepsearchBody, emitTo, okSink, resolveStream, hk,
      processLines_okSink, unexpectedHandler]
  refine ⟨⟨by rw [h1], ?_⟩, by rw [h2], ?_⟩
  · rw [h1]
    simp only [List.all_cons, Bool.and_eq_true]
    exact ⟨rfl, lineEvents_not_terminal loads (streamLinesOf chunks)⟩
  · rw [h2]
    exact getLast?_append_singleton _ _

/-- Claim C4 witness: the amended statement at a concrete one-chunk stream
and exception message. -/
theorem C4_abort_emission_paths_witness :
    v1.jina_api_key ≠ "" ∧
      (((deepsearch v1 "q" (some true) (some okSink)
            (.ok ⟨200, "", JsonV.null, ["a"], .timedOut⟩) loads0).1 =
          "Error: request to DeepSearch timed out." ∧
        (deepsearch v1 "q" (some true) (some okSink)
            (.ok ⟨200, "", JsonV.null, ["a"], .timedOut⟩) loads0).2.all
          (fun e => !isTerminalStatus e) = true) ∧
      ((deepsearch v1 "q" (some true) (some okSink)
            (.ok ⟨200, "", JsonV.null, ["a"], .raised "boom"⟩) loads0).1 =
          "Unexpected error during DeepSearch: " ++ "boom" ∧
        (deepsearch v1 "q" (some true) (some okSink)
            (.ok ⟨200, "", JsonV.null, ["a"], .raised "boom"⟩) loads0).2.getLast? =
          some (Event.status ("Unexpected error: " ++ "boom") true))) :=
  ⟨by decide, C4_abort_emission_paths v1 "q" ["a"] "" JsonV.null loads0 "boom" (by decide)⟩

/-- Claim C7 counterexample: the choice element `cexElem` has
`delta = {"content": true}` (a non-string `content`) and a string
`text` field. The claim's rule ("delta.content only when delta contains
STRING content, else the fallbacks") yields the fallback `"T"`, but the
source checks only key presence and applies `str(...)` (source lines
110-115), extracting `"True"`; embedded under `choices`, the whole Text
Extraction Rule returns `"True"`, not `"T"`. -/
theorem C7_counterexample :
    extractPiece cexElem = some "True" ∧ specPiece cexElem = some "T" ∧
      _extract_text_from_parsed (JsonV.obj [("choices", JsonV.arr [cexElem])]) =
        some "True" :=
  ⟨rfl, rfl, rfl⟩

/-- Claim C7 (corrected) amended statement: for every mapping with a
`choices` sequence and no higher-priority string key, the rule walks the
choice elements in order, taking `str(element.delta.content)` whenever
`delta` is a mapping containing a `content` key OF ANY TYPE (the
`message.content` / `text` fallbacks apply only when the delta branch does
not), and when at least one piece was collected it returns the pieces
concatenated in order with no separator. -/
theorem C7_choices_concatenation (kvs : List (String × JsonV)) (cs : List JsonV)
    (hc : lookup? kvs "choices" = some (.arr cs))
    (hp : firstStringKey kvs priorityKeys = none)
    (hne : cs.filterMap extractPiece ≠ []) :
    _extract_text_from_parsed (JsonV.obj kvs) =
      some (String.join (cs.filterMap extractPiece)) := by
  have hpl : priorityLoop kvs ["content", "text", "message", "raw"] = none := by
    rw [priorityLoop_eq_firstStringKey kvs]
    exact hp
  cases hcs : cs.filterMap extractPiece with
  | nil => exact absurd hcs hne
  | cons a as =>
    simp [_extract_text_from_parsed, hpl, hc, hcs]

/-- The two-element `choices` list of the spec's `"Hello"` example. -/
def helloCs : List JsonV :=
  [JsonV.obj [("delta", JsonV.obj [("content", JsonV.str "Hel")])],
   JsonV.obj [("delta", JsonV.obj [("content", JsonV.str "lo")])]]

/-- The spec's `"Hello"` example mapping. -/
def helloChoices : List (String × JsonV) := [("choices", JsonV.arr helloCs)]

/-- Claim C7 witness: the claim's own example
`{"choices": [{"delta": {"content": "Hel"}}, {"delta": {"content": "lo"}}]}`
extracts to `"Hello"` — concatenated in order with no separator. -/
theorem C7_choices_concatenation_witness :
    lookup? helloChoices "choices" = some (JsonV.arr helloCs) ∧
      firstStringKey helloChoices priorityKeys = none ∧
      helloCs.filterMap extractPiece ≠ [] ∧
      _extract_text_from_parsed (JsonV.obj helloChoices) = some "Hello" :=
  ⟨rfl, rfl, by decide,
   C7_choices_concatenation helloChoices helloCs rfl rfl (by decide)⟩
